import Mathlib

/-!
Shallow embedding of the two source files of this repository:

* `src/handler/handler.go` (package `handler`): the Conplicity handler —
  image readiness (`pullImage`), the backup-run supervisor
  (`LaunchDuplicity`), the metrics push (`PushToPrometheus`) and the
  container-removal helper (`removeContainer`).

* `src/unnamed/part_000` (package `client`): the remote inventory client —
  `NewClient` (constructor with liveness ping) and the shared request
  primitive `newRequest`, which is also used by `GetVolumes` and is
  therefore modelled generically in its decode target.

External collaborators (the Docker engine-api client, `net/http`,
`encoding/json`, and `util.CheckErr` from
`github.com/camptocamp/conplicity/util`) are modelled by explicit outcome
records passed to each operation, together with the following documented
Go semantics that the definitions below rely on:

* `util.CheckErr(err, msg, level)` is a switch on `level` that logs `msg`
  when `err != nil`: at level `"error"` it calls `log.Errorf` and control
  continues; at level `"fatal"` it calls `log.Fatalf`, which terminates the
  process with `os.Exit(1)`.  `os.Exit` does not run deferred functions.
* A run-time panic (for example a nil-pointer dereference) unwinds the
  stack and does run the deferred functions registered so far.
* `ContainerLogs` returns a nil stream handle together with its error, so
  `defer body.Close()` and `ioutil.ReadAll(body)` dereference a nil
  interface when log streaming failed.
* `ContainerInspect` returns the zero `types.ContainerJSON` together with
  its error; the zero value has a nil embedded `*ContainerJSONBase`, so
  `cont.State.ExitCode` dereferences a nil pointer when inspection failed.
-/

namespace Conplicity

/-- The AWS credential block of the configuration struct
(`src/handler/handler.go`, lines 42-45). -/
structure AWSOptions where
  accessKeyID : String
  secretAccessKey : String

/-- The Swift credential block of the configuration struct
(`src/handler/handler.go`, lines 47-53). -/
structure SwiftOptions where
  username : String
  password : String
  authURL : String
  tenantName : String
  regionName : String

/-- The part of the configuration struct read by the core operations
(`src/handler/handler.go`, lines 23-58). -/
structure Config where
  image : String
  aws : AWSOptions
  swift : SwiftOptions
  pushgatewayURL : String

/-- The options passed to `ContainerRemove` by `removeContainer`
(`src/handler/handler.go`, lines 250-254). -/
structure RemoveOptions where
  force : Bool
  removeVolumes : Bool
  removeLinks : Bool

/-- `removeContainer` always removes with force, volumes and links
(`src/handler/handler.go`, lines 250-254). -/
def forceRemoveOptions : RemoveOptions :=
  { force := true, removeVolumes := true, removeLinks := true }

/-- The `container.Config` value passed to `ContainerCreate`
(`src/handler/handler.go`, lines 173-183). -/
structure ContainerConfig where
  cmd : List String
  env : List String
  image : String
  openStdin : Bool
  stdinOnce : Bool
  attachStdin : Bool
  attachStdout : Bool
  attachStderr : Bool
  tty : Bool

/-- One `ContainerCreate` call: the container configuration and the host
bind mounts (`src/handler/handler.go`, lines 171-187). -/
structure CreateCall where
  config : ContainerConfig
  binds : List String

/-- The environment list built at the top of `LaunchDuplicity`
(`src/handler/handler.go`, lines 154-163): eight entries in fixed order,
each credential taken from the configuration (empty string when unset),
and `SWIFT_AUTHVERSION` hardcoded to `2`. -/
def duplicityEnv (c : Config) : List String :=
  ["AWS_ACCESS_KEY_ID=" ++ c.aws.accessKeyID,
   "AWS_SECRET_ACCESS_KEY=" ++ c.aws.secretAccessKey,
   "SWIFT_USERNAME=" ++ c.swift.username,
   "SWIFT_PASSWORD=" ++ c.swift.password,
   "SWIFT_AUTHURL=" ++ c.swift.authURL,
   "SWIFT_TENANTNAME=" ++ c.swift.tenantName,
   "SWIFT_REGIONNAME=" ++ c.swift.regionName,
   "SWIFT_AUTHVERSION=2"]

/-- Results of the Docker engine-api calls made by one `LaunchDuplicity`
invocation.  `createRes` carries the container id on success; `readContent`
is the data `ioutil.ReadAll` obtained from the log stream (possibly partial
when `readErr` is set); `inspectRes` carries the inspected exit code. -/
structure DockerRuntime where
  createRes : Except String String
  startRes : Except String Unit
  logsRes : Except String Unit
  readContent : String
  readErr : Option String
  inspectRes : Except String Int

/-- How one `LaunchDuplicity` invocation ends.

* `exited`: the process terminated through `util.CheckErr(_, _, "fatal")`,
  i.e. `log.Fatalf` and `os.Exit(1)`; deferred functions do not run.
* `panicked`: a run-time nil-pointer panic unwound the call; deferred
  functions registered so far do run.
* `returned state stdout err`: the function returned its named results. -/
inductive LaunchOutcome where
  | exited
  | panicked
  | returned (state : Int) (stdout : String) (err : Option String)

/-- Observable trace of one `LaunchDuplicity` invocation: the
`ContainerCreate` calls issued, the number of `ContainerInspect` calls,
the `ContainerRemove` calls (container id and options), and the outcome. -/
structure LaunchTrace where
  createCalls : List CreateCall
  inspectCalls : Nat
  removeCalls : List (String × RemoveOptions)
  outcome : LaunchOutcome

/-- `LaunchDuplicity` (`src/handler/handler.go`, lines 153-217).

Step mapping, with the `util.CheckErr` level used at each step:

* `ContainerCreate` fails (line 188, level `"fatal"`): `os.Exit(1)` before
  the `defer` on line 189 is registered — no remove call.
* `ContainerStart` fails (line 193, level `"fatal"`): `os.Exit(1)`; the
  deferred `removeContainer` is skipped because `os.Exit` does not run
  deferred functions — no remove call.
* `ContainerLogs` fails (line 201, level `"error"`): control continues with
  a nil stream handle, and `defer body.Close()` / `ioutil.ReadAll(body)`
  dereference the nil interface — panic; the deferred remove runs.
* `ioutil.ReadAll` fails (line 205, level `"error"`): control continues
  with the partial content; `stdout` is set from it.
* `ContainerInspect` fails (line 210, level `"error"`): control continues
  and `cont.State.ExitCode` dereferences the nil embedded pointer of the
  zero `ContainerJSON` — panic; the deferred remove runs.
* All calls succeed: the function returns the inspected exit code, the
  captured output, and a nil error (the named `err` was last assigned by
  the successful `ContainerInspect`). -/
def LaunchDuplicity (c : Config) (cmd binds : List String) (d : DockerRuntime) :
    LaunchTrace :=
  let cc : CreateCall :=
    { config := { cmd := cmd, env := duplicityEnv c, image := c.image,
                  openStdin := true, stdinOnce := true, attachStdin := true,
                  attachStdout := true, attachStderr := true, tty := true },
      binds := binds }
  match d.createRes with
  | .error _ =>
      { createCalls := [cc], inspectCalls := 0, removeCalls := [],
        outcome := .exited }
  | .ok cid =>
      match d.startRes with
      | .error _ =>
          { createCalls := [cc], inspectCalls := 0, removeCalls := [],
            outcome := .exited }
      | .ok _ =>
          match d.logsRes with
          | .error _ =>
              { createCalls := [cc], inspectCalls := 0,
                removeCalls := [(cid, forceRemoveOptions)],
                outcome := .panicked }
          | .ok _ =>
              match d.inspectRes with
              | .error _ =>
                  { createCalls := [cc], inspectCalls := 1,
                    removeCalls := [(cid, forceRemoveOptions)],
                    outcome := .panicked }
              | .ok code =>
                  { createCalls := [cc], inspectCalls := 1,
                    removeCalls := [(cid, forceRemoveOptions)],
                    outcome := .returned code d.readContent none }

/-- One HTTP request as assembled by `PushToPrometheus`
(`src/handler/handler.go`, lines 225-234). -/
structure PromRequest where
  method : String
  url : String
  body : String
  contentType : String

/-- Results of the `net/http` calls made by `PushToPrometheus`:
`newRequestErr` is the error of `http.NewRequest` (set when the composed
URL is rejected by the URL parser), `doErr` the error of `client.Do`. -/
structure HttpRuntime where
  newRequestErr : Option String
  doErr : Option String

/-- How `PushToPrometheus` ends: a normal return with its error result, or
a run-time panic (`req.Header.Set` on the nil request returned by a failed
`http.NewRequest`, whose error is never checked — line 233-234). -/
inductive PushOutcome where
  | returned (err : Option String)
  | panicked

/-- Observable trace of one `PushToPrometheus` call: the HTTP requests
handed to `client.Do`, and the outcome. -/
structure PushTrace where
  httpCalls : List PromRequest
  outcome : PushOutcome

/-- `PushToPrometheus` (`src/handler/handler.go`, lines 220-244): no-op
returning nil when the metric list is empty or no gateway URL is
configured; otherwise it builds the target URL and the newline-joined body
with trailing newline, creates one PUT request with content type
`text/plain; version=0.0.4`, and issues it through `client.Do`, returning
whatever error `Do` produced.  The error of `http.NewRequest` is not
checked before `req.Header.Set`, so a rejected URL panics on the nil
request and no HTTP call is made. -/
def PushToPrometheus (metrics : List String) (gatewayURL hostname : String)
    (h : HttpRuntime) : PushTrace :=
  if metrics.length = 0 ∨ gatewayURL = "" then
    { httpCalls := [], outcome := .returned none }
  else
    let url := gatewayURL ++ "/metrics/job/conplicity/instance/" ++ hostname
    let data := String.intercalate "\n" metrics ++ "\n"
    match h.newRequestErr with
    | some _ => { httpCalls := [], outcome := .panicked }
    | none =>
        { httpCalls := [{ method := "PUT", url := url, body := data,
                          contentType := "text/plain; version=0.0.4" }],
          outcome := .returned h.doErr }

/-- Results of the engine-api calls made by `pullImage`:
`inspectRes` for `ImageInspectWithRaw`, `pullRes` for `ImagePull`. -/
structure ImageRuntime where
  inspectRes : Except String Unit
  pullRes : Except String Unit

/-- Observable trace of one `pullImage` call: how many `ImagePull` calls
were issued, and the returned error. -/
structure PullTrace where
  pullCalls : Nat
  err : Option String

/-- `pullImage` (`src/handler/handler.go`, lines 136-150): if
`ImageInspectWithRaw` fails, the absence is logged as an informational
event and `ImagePull` is issued, its error becoming the result; if the
inspect succeeds, no pull happens and the result is nil. -/
def pullImage (i : ImageRuntime) : PullTrace :=
  match i.inspectRes with
  | .error _ =>
      { pullCalls := 1,
        err := match i.pullRes with
               | .ok _ => none
               | .error e => some e }
  | .ok _ => { pullCalls := 0, err := none }

end Conplicity

namespace BivacClient

/-- The client struct of package `client` (`src/unnamed/part_000`,
lines 12-15). -/
structure Client where
  remoteAddress : String
  psk : String
  deriving DecidableEq

/-- A JSON value, the shape `encoding/json` produces from a response
body. -/
inductive Json where
  | null
  | bool (b : Bool)
  | num (n : Int)
  | str (s : String)
  | arr (elems : List Json)
  | obj (fields : List (String × Json))

/-- Insert into an association list, replacing an existing binding for the
same key (the behaviour of repeated JSON object keys under
`json.Unmarshal`: the last occurrence wins). -/
def mapSet : List (String × String) → String → String → List (String × String)
  | [], k, v => [(k, v)]
  | kv :: rest, k, v =>
      if kv.1 = k then (k, v) :: rest else kv :: mapSet rest k v

/-- `json.Unmarshal` into a `map[string]string`: succeeds on a JSON object
all of whose values are strings, and on `null` (which leaves the map nil,
behaving as empty under lookup); any other shape is a decode error. -/
def decodeStringMap : Json → Option (List (String × String))
  | .null => some []
  | .obj fields =>
      fields.foldlM
        (fun m kv =>
          match kv.2 with
          | .str s => some (mapSet m kv.1 s)
          | _ => none)
        []
  | _ => none

/-- Go map lookup with the zero-value default: `m[k]` is `""` when `k` is
absent. -/
def mapGetD (m : List (String × String)) (k : String) : String :=
  match m.find? (fun kv => kv.1 == k) with
  | some kv => kv.2
  | none => ""

/-- Insertion into a key-sorted association list, used to model `fmt`'s
`%v` rendering of a `map[string]string` (which prints keys sorted). -/
def insertByKey (kv : String × String) :
    List (String × String) → List (String × String)
  | [] => [kv]
  | kv2 :: rest =>
      if kv.1 ≤ kv2.1 then kv :: kv2 :: rest else kv2 :: insertByKey kv rest

/-- Sort an association list by key (model of `fmt`'s map ordering). -/
def sortByKey (m : List (String × String)) : List (String × String) :=
  m.foldr insertByKey []

/-- `fmt`'s `%v` rendering of a `map[string]string`:
`map[k1:v1 k2:v2 ...]` with keys sorted. -/
def formatStringMap (m : List (String × String)) : String :=
  "map[" ++ String.intercalate " " ((sortByKey m).map (fun kv => kv.1 ++ ":" ++ kv.2)) ++ "]"

/-- The error wrapper on a failed `http.NewRequest`
(`src/unnamed/part_000`, line 49). -/
def buildErrMsg (e : String) : String := "failed to build request: " ++ e

/-- The error wrapper on a failed `client.Do` (`src/unnamed/part_000`,
line 57). -/
def sendErrMsg (e : String) : String := "failed to send request: " ++ e

/-- The error wrapper on a failed `ioutil.ReadAll` of the response body
(`src/unnamed/part_000`, line 64). -/
def readBodyErrMsg (e : String) : String := "failed to read body: " ++ e

/-- The error wrapper on a failed `json.Unmarshal` of a 200 response
(`src/unnamed/part_000`, line 70). -/
def unmarshalErrMsg (e : String) : String :=
  "failed to unmarshal response from the Bivac instance: " ++ e

/-- The error produced for a non-200 status, carrying the numeric status
code and the raw body (`src/unnamed/part_000`, line 74, format
`[%d] %s`). -/
def statusErrMsg (status : Nat) (body : String) : String :=
  "received wrong status code from the Bivac instance: [" ++ toString status ++ "] " ++ body

/-- The wrapper `NewClient` and `GetVolumes` put around any `newRequest`
error (`src/unnamed/part_000`, lines 26 and 39). -/
def connectErrMsg (e : String) : String :=
  "failed to connect to the remote Bivac instance: " ++ e

/-- The error `NewClient` produces when the decoded ping body does not
carry the `pong` marker (`src/unnamed/part_000`, line 30, format `%v` on
the decoded map). -/
def wrongResponseMsg (m : List (String × String)) : String :=
  "wrong response from the Bivac instance: " ++ formatStringMap m

/-- One outbound HTTP request as assembled by `newRequest`
(`src/unnamed/part_000`, lines 47-53): method, URL, and the value of the
`Authorization` header. -/
structure Request where
  method : String
  url : String
  authHeader : String
  deriving DecidableEq

/-- Results of the external calls made by one `newRequest` invocation:
`buildErr` is the error of `http.NewRequest`, `doErr` of `client.Do`,
`readErr` of `ioutil.ReadAll`; `status` and `rawBody` describe a received
response; `parsed` is the `encoding/json` parse of `rawBody` (`none` when
the body is not valid JSON) and `parseErrMsg` the text of the
`json.Unmarshal` error when decoding fails. -/
structure HttpOutcome where
  buildErr : Option String
  doErr : Option String
  readErr : Option String
  status : Nat
  rawBody : String
  parsed : Option Json
  parseErrMsg : String

/-- The request value assembled by `newRequest` when `http.NewRequest`
succeeds: the method, `remoteAddress + endpoint`, and the
`Authorization: Bearer <psk>` header (`src/unnamed/part_000`,
lines 47-53). -/
def requestOf (c : Client) (method endpoint : String) : Request :=
  { method := method, url := c.remoteAddress ++ endpoint,
    authHeader := "Bearer " ++ c.psk }

/-- The result of one `newRequest` invocation (`src/unnamed/part_000`,
lines 45-78), generic in the decode target: build the request, send it,
read the full body, require status 200 exactly (any other status is an
error carrying the status code and raw body), then decode the body into
the expected shape (a decode failure is the distinct unmarshal error). -/
def newRequestResult {α : Type} (decode : Json → Option α) (o : HttpOutcome) :
    Except String α :=
  match o.buildErr with
  | some e => .error (buildErrMsg e)
  | none =>
      match o.doErr with
      | some e => .error (sendErrMsg e)
      | none =>
          match o.readErr with
          | some e => .error (readBodyErrMsg e)
          | none =>
              if o.status = 200 then
                match o.parsed.bind decode with
                | some a => .ok a
                | none => .error (unmarshalErrMsg o.parseErrMsg)
              else
                .error (statusErrMsg o.status o.rawBody)

/-- `newRequest` (`src/unnamed/part_000`, lines 45-78): the request that
was issued (none when `http.NewRequest` failed) and the operation's
result. -/
def newRequest {α : Type} (decode : Json → Option α) (c : Client)
    (method endpoint : String) (o : HttpOutcome) :
    Option Request × Except String α :=
  (match o.buildErr with
   | some _ => none
   | none => some (requestOf c method endpoint),
   newRequestResult decode o)

/-- `NewClient` (`src/unnamed/part_000`, lines 17-34): the client value is
built first from the supplied address and preshared key, then the liveness
ping `GET /ping` is issued through `newRequest` with the
`map[string]string` decode.  Any `newRequest` error is wrapped in the
connect message; a decoded body whose `type` entry is not `pong` yields
the wrong-response error carrying the decoded map; otherwise the error is
nil.  The client value is returned in every branch. -/
def NewClient (remoteAddress psk : String) (o : HttpOutcome) :
    Client × Option String :=
  let c : Client := { remoteAddress := remoteAddress, psk := psk }
  match (newRequest decodeStringMap c "GET" "/ping" o).2 with
  | .error e => (c, some (connectErrMsg e))
  | .ok m =>
      if mapGetD m "type" ≠ "pong" then (c, some (wrongResponseMsg m))
      else (c, none)

end BivacClient

/-- A sample configuration used to evaluate the supervisor on concrete
runtime outcomes. -/
def sampleConfig : Conplicity.Config :=
  { image := "camptocamp/duplicity:latest",
    aws := { accessKeyID := "AK", secretAccessKey := "SK" },
    swift := { username := "user", password := "pw", authURL := "https://auth",
               tenantName := "tenant", regionName := "region" },
    pushgatewayURL := "" }

/-- A configuration with every credential unset. -/
def emptyCredsConfig : Conplicity.Config :=
  { image := "img",
    aws := { accessKeyID := "", secretAccessKey := "" },
    swift := { username := "", password := "", authURL := "",
               tenantName := "", regionName := "" },
    pushgatewayURL := "" }

/-- Runtime outcomes: container creation succeeds, start fails. -/
def startFailRuntime : Conplicity.DockerRuntime :=
  { createRes := .ok "c1", startRes := .error "start failed",
    logsRes := .ok (), readContent := "", readErr := none,
    inspectRes := .ok 0 }

/-- Runtime outcomes: create and start succeed, opening the log stream
fails. -/
def logsFailRuntime : Conplicity.DockerRuntime :=
  { createRes := .ok "c1", startRes := .ok (),
    logsRes := .error "transport error", readContent := "", readErr := none,
    inspectRes := .ok 0 }

/-- Runtime outcomes: create, start and log streaming succeed, the final
inspection fails. -/
def inspectFailRuntime : Conplicity.DockerRuntime :=
  { createRes := .ok "c1", startRes := .ok (), logsRes := .ok (),
    readContent := "log output", readErr := none,
    inspectRes := .error "inspect failed" }

/-- Runtime outcomes: every engine-api call succeeds. -/
def okRuntime : Conplicity.DockerRuntime :=
  { createRes := .ok "c1", startRes := .ok (), logsRes := .ok (),
    readContent := "log output", readErr := none, inspectRes := .ok 0 }

/-- An `http.NewRequest` failure for the gateway URL `:` (the URL parser
rejects it with a missing-protocol-scheme error). -/
def badUrlRuntime : Conplicity.HttpRuntime :=
  { newRequestErr := some "parse \":/metrics/job/conplicity/instance/host1\": missing protocol scheme",
    doErr := none }

/-- A ping exchange answering 200 with body `\x7b"type":"pong"\x7d`. -/
def pongOutcome : BivacClient.HttpOutcome :=
  { buildErr := none, doErr := none, readErr := none, status := 200,
    rawBody := "\x7b\"type\":\"pong\"\x7d",
    parsed := some (.obj [("type", .str "pong")]), parseErrMsg := "" }

/-- A ping exchange answering 200 with body `\x7b"type":"wrong"\x7d`. -/
def wrongOutcome : BivacClient.HttpOutcome :=
  { buildErr := none, doErr := none, readErr := none, status := 200,
    rawBody := "\x7b\"type\":\"wrong\"\x7d",
    parsed := some (.obj [("type", .str "wrong")]), parseErrMsg := "" }

/-- An exchange answering status 500 with body `oops`. -/
def status500Outcome : BivacClient.HttpOutcome :=
  { buildErr := none, doErr := none, readErr := none, status := 500,
    rawBody := "oops", parsed := none, parseErrMsg := "unexpected" }

theorem string_data_append (a b : String) : (a ++ b).data = a.data ++ b.data := by
  rcases a with ⟨la⟩
  rcases b with ⟨lb⟩
  rfl

theorem string_ne_of_data_take_ne (n : Nat) {a b : String}
    (h : a.data.take n ≠ b.data.take n) : a ≠ b := by
  intro he
  exact h (by rw [he])

theorem list_take_append_of_le {α : Type _} {n : Nat} {l1 l2 : List α}
    (h : n ≤ l1.length) : (l1 ++ l2).take n = l1.take n := by
  rw [List.take_append_eq_append_take, Nat.sub_eq_zero_of_le h, List.take_zero,
      List.append_nil]

theorem unmarshal_msg_take (e : String) :
    (BivacClient.unmarshalErrMsg e).data.take 15 = "failed to unmar".data := by
  simp only [BivacClient.unmarshalErrMsg, string_data_append]
  rw [list_take_append_of_le] <;> decide

theorem send_msg_take (e : String) :
    (BivacClient.sendErrMsg e).data.take 15 = "failed to send ".data := by
  simp only [BivacClient.sendErrMsg, string_data_append]
  rw [list_take_append_of_le] <;> decide

theorem status_msg_take (s : Nat) (b : String) :
    (BivacClient.statusErrMsg s b).data.take 15 = "received wrong ".data := by
  simp only [BivacClient.statusErrMsg, string_data_append, List.append_assoc]
  rw [list_take_append_of_le] <;> decide

/-- Claim C1 (code defect, evaluated at the failing input): in a run where
`ContainerCreate` succeeds and `ContainerStart` fails, `LaunchDuplicity`
terminates through `util.CheckErr(err, _, "fatal")`, i.e. `log.Fatalf` and
`os.Exit(1)`; `os.Exit` does not run deferred functions, so the deferred
`removeContainer` is skipped and zero container-remove calls are made —
the claim requires exactly one remove call on this outcome. -/
theorem launch_start_failure_skips_remove :
    (Conplicity.LaunchDuplicity sampleConfig ["duplicity", "backup"]
        ["/vol:/vol:ro"] startFailRuntime).removeCalls = []
    ∧ (Conplicity.LaunchDuplicity sampleConfig ["duplicity", "backup"]
        ["/vol:/vol:ro"] startFailRuntime).outcome = .exited :=
  ⟨rfl, rfl⟩

/-- Claim C2 (code defect, evaluated at the failing input): in a run where
create and start succeed but `ContainerLogs` fails, `util.CheckErr` at
level `"error"` only logs, and the nil stream handle is then used by
`defer body.Close()` and `ioutil.ReadAll(body)` — a nil-pointer panic.
The run never reaches `ContainerInspect` and returns no exit code, where
the claim says it proceeds to inspect and returns the inspected exit
code. -/
theorem launch_logs_failure_panics :
    (Conplicity.LaunchDuplicity sampleConfig ["duplicity", "backup"]
        ["/vol:/vol:ro"] logsFailRuntime).outcome = .panicked
    ∧ (Conplicity.LaunchDuplicity sampleConfig ["duplicity", "backup"]
        ["/vol:/vol:ro"] logsFailRuntime).inspectCalls = 0
    ∧ (Conplicity.LaunchDuplicity sampleConfig ["duplicity", "backup"]
        ["/vol:/vol:ro"] logsFailRuntime).removeCalls
        = [("c1", Conplicity.forceRemoveOptions)] :=
  ⟨rfl, rfl, rfl⟩

/-- Claim C3 (code defect, evaluated at the failing input): when
`ContainerInspect` fails, `util.CheckErr` at level `"error"` only logs and
`cont` is the zero `ContainerJSON`, whose embedded `*ContainerJSONBase` is
nil; `cont.State.ExitCode` is then a nil-pointer dereference, so the run
panics instead of returning any exit code — there is no sentinel value
(and the zero-initialized named return would have been `0`, a real exit
code, had the dereference not crashed). -/
theorem launch_inspect_failure_panics :
    (Conplicity.LaunchDuplicity sampleConfig ["duplicity", "backup"]
        ["/vol:/vol:ro"] inspectFailRuntime).outcome = .panicked
    ∧ (Conplicity.LaunchDuplicity sampleConfig ["duplicity", "backup"]
        ["/vol:/vol:ro"] inspectFailRuntime).inspectCalls = 1
    ∧ (Conplicity.LaunchDuplicity sampleConfig ["duplicity", "backup"]
        ["/vol:/vol:ro"] inspectFailRuntime).removeCalls
        = [("c1", Conplicity.forceRemoveOptions)] :=
  ⟨rfl, rfl, rfl⟩

/-- Claim C4: `PushToPrometheus` with an empty metric batch or an empty
gateway URL issues zero HTTP calls and returns a nil error. -/
theorem push_noop_on_empty (metrics : List String) (gatewayURL hostname : String)
    (h : Conplicity.HttpRuntime) (hcond : metrics = [] ∨ gatewayURL = "") :
    Conplicity.PushToPrometheus metrics gatewayURL hostname h
      = { httpCalls := [], outcome := .returned none } := by
  rcases hcond with h1 | h1 <;> subst h1 <;> simp [Conplicity.PushToPrometheus]

/-- Witness for C4 at a concrete input: the empty batch. -/
theorem push_noop_on_empty_witness :
    Conplicity.PushToPrometheus [] "http://gw" "host1"
        { newRequestErr := none, doErr := none }
      = { httpCalls := [], outcome := .returned none } :=
  push_noop_on_empty [] "http://gw" "host1"
    { newRequestErr := none, doErr := none } (Or.inl rfl)

/-- Counterexample to claim C5 as stated: with the non-empty batch
`["a 1"]` and the non-empty gateway URL `":"`, the composed URL
`:/metrics/job/conplicity/instance/host1` is rejected by `http.NewRequest`
(missing protocol scheme); the error is never checked, `req.Header.Set`
dereferences the nil request, and the call panics having issued zero HTTP
requests — not the exactly-one PUT the claim promises for every non-empty
batch and URL. -/
theorem push_unparseable_url_counterexample :
    (Conplicity.PushToPrometheus ["a 1"] ":" "host1" badUrlRuntime).httpCalls = []
    ∧ (Conplicity.PushToPrometheus ["a 1"] ":" "host1" badUrlRuntime).outcome
        = .panicked :=
  ⟨rfl, rfl⟩

/-- Claim C5 as amended: for every non-empty metric batch and non-empty
gateway URL whose composed request URL is accepted by `http.NewRequest`,
exactly one HTTP PUT is issued, to
`<gatewayURL>/metrics/job/conplicity/instance/<hostname>`, with body equal
to the metric lines joined by newlines followed by one trailing newline
and the header `Content-Type: text/plain; version=0.0.4`. -/
theorem push_single_put (metrics : List String) (gatewayURL hostname : String)
    (h : Conplicity.HttpRuntime) (hm : metrics ≠ []) (hg : gatewayURL ≠ "")
    (hb : h.newRequestErr = none) :
    Conplicity.PushToPrometheus metrics gatewayURL hostname h
      = { httpCalls :=
            [{ method := "PUT",
               url := gatewayURL ++ "/metrics/job/conplicity/instance/" ++ hostname,
               body := String.intercalate "\n" metrics ++ "\n",
               contentType := "text/plain; version=0.0.4" }],
          outcome := .returned h.doErr } := by
  have hlen : ¬(metrics.length = 0 ∨ gatewayURL = "") := by
    rintro (h0 | h0)
    · exact hm (List.length_eq_zero.mp h0)
    · exact hg h0
  simp only [Conplicity.PushToPrometheus]
  rw [if_neg hlen, hb]

/-- Witness for C5 at the spec's concrete scenario: batch
`["a 1", "b 2"]`, gateway `http://gw`, instance `host1` — body
`a 1\nb 2\n` on a single PUT. -/
theorem push_single_put_witness :
    Conplicity.PushToPrometheus ["a 1", "b 2"] "http://gw" "host1"
        { newRequestErr := none, doErr := none }
      = { httpCalls :=
            [{ method := "PUT",
               url := "http://gw/metrics/job/conplicity/instance/host1",
               body := "a 1\nb 2\n",
               contentType := "text/plain; version=0.0.4" }],
          outcome := .returned none } :=
  push_single_put ["a 1", "b 2"] "http://gw" "host1"
    { newRequestErr := none, doErr := none } (by decide) (by decide) rfl

/-- Claim C8: the environment list composed for the backup container (the
one recorded on the `ContainerCreate` call of every `LaunchDuplicity`
invocation) has exactly 8 entries in the fixed order
`AWS_ACCESS_KEY_ID`, `AWS_SECRET_ACCESS_KEY`, `SWIFT_USERNAME`,
`SWIFT_PASSWORD`, `SWIFT_AUTHURL`, `SWIFT_TENANTNAME`, `SWIFT_REGIONNAME`,
`SWIFT_AUTHVERSION`; every unset credential appears as `KEY=` with an
empty value rather than being omitted, and `SWIFT_AUTHVERSION` is
hardcoded to `2`. -/
theorem duplicity_env_shape (cfg : Conplicity.Config) (cmd binds : List String)
    (d : Conplicity.DockerRuntime) :
    (Conplicity.LaunchDuplicity cfg cmd binds d).createCalls.map
        (fun cc => cc.config.env) = [Conplicity.duplicityEnv cfg]
    ∧ Conplicity.duplicityEnv cfg
        = ["AWS_ACCESS_KEY_ID=" ++ cfg.aws.accessKeyID,
           "AWS_SECRET_ACCESS_KEY=" ++ cfg.aws.secretAccessKey,
           "SWIFT_USERNAME=" ++ cfg.swift.username,
           "SWIFT_PASSWORD=" ++ cfg.swift.password,
           "SWIFT_AUTHURL=" ++ cfg.swift.authURL,
           "SWIFT_TENANTNAME=" ++ cfg.swift.tenantName,
           "SWIFT_REGIONNAME=" ++ cfg.swift.regionName,
           "SWIFT_AUTHVERSION=2"]
    ∧ (Conplicity.duplicityEnv cfg).length = 8
    ∧ (cfg.aws.accessKeyID = "" →
        (Conplicity.duplicityEnv cfg).get? 0 = some "AWS_ACCESS_KEY_ID=")
    ∧ (cfg.aws.secretAccessKey = "" →
        (Conplicity.duplicityEnv cfg).get? 1 = some "AWS_SECRET_ACCESS_KEY=")
    ∧ (cfg.swift.username = "" →
        (Conplicity.duplicityEnv cfg).get? 2 = some "SWIFT_USERNAME=")
    ∧ (cfg.swift.password = "" →
        (Conplicity.duplicityEnv cfg).get? 3 = some "SWIFT_PASSWORD=")
    ∧ (cfg.swift.authURL = "" →
        (Conplicity.duplicityEnv cfg).get? 4 = some "SWIFT_AUTHURL=")
    ∧ (cfg.swift.tenantName = "" →
        (Conplicity.duplicityEnv cfg).get? 5 = some "SWIFT_TENANTNAME=")
    ∧ (cfg.swift.regionName = "" →
        (Conplicity.duplicityEnv cfg).get? 6 = some "SWIFT_REGIONNAME=")
    ∧ (Conplicity.duplicityEnv cfg).get? 7 = some "SWIFT_AUTHVERSION=2" := by
  refine ⟨?_, rfl, rfl, ?_, ?_, ?_, ?_, ?_, ?_, ?_, rfl⟩
  · rcases d with ⟨cr, sr, lr, rc, re, ir⟩
    cases cr <;> cases sr <;> cases lr <;> cases ir <;> rfl
  all_goals intro h
  all_goals simp only [Conplicity.duplicityEnv, h]
  all_goals rfl

/-- Witness for C8 at a configuration with every credential unset: all
eight entries are present with empty values, and the auth version entry is
hardcoded. -/
theorem duplicity_env_shape_witness :
    (Conplicity.duplicityEnv emptyCredsConfig).length = 8
    ∧ (Conplicity.duplicityEnv emptyCredsConfig).get? 0
        = some "AWS_ACCESS_KEY_ID="
    ∧ (Conplicity.duplicityEnv emptyCredsConfig).get? 2
        = some "SWIFT_USERNAME="
    ∧ (Conplicity.duplicityEnv emptyCredsConfig).get? 7
        = some "SWIFT_AUTHVERSION=2" := by
  have h := duplicity_env_shape emptyCredsConfig ["duplicity"] [] okRuntime
  exact ⟨h.2.2.1, h.2.2.2.1 rfl, h.2.2.2.2.2.1 rfl, h.2.2.2.2.2.2.2.2.2.2⟩

/-- Claim C9: `pullImage` issues an `ImagePull` call exactly when the
`ImageInspectWithRaw` check fails; when the inspect succeeds it performs
no pull and returns nil; and an absent image with a successful pull is not
an error by itself (the result is nil). -/
theorem pull_image_iff_inspect_fails (i : Conplicity.ImageRuntime) :
    ((Conplicity.pullImage i).pullCalls = 1 ↔ ∃ e, i.inspectRes = .error e)
    ∧ (∀ u, i.inspectRes = .ok u →
        Conplicity.pullImage i = { pullCalls := 0, err := none })
    ∧ (∀ e, i.inspectRes = .error e → i.pullRes = .ok () →
        (Conplicity.pullImage i).err = none) := by
  rcases i with ⟨ir, pr⟩
  cases ir <;> cases pr <;> simp [Conplicity.pullImage]

/-- Witness for C9 at concrete inputs: an already-present image causes no
pull and returns nil; an absent image causes one pull, with a nil result
when the pull succeeds. -/
theorem pull_image_witness :
    Conplicity.pullImage ⟨.ok (), .ok ()⟩ = { pullCalls := 0, err := none }
    ∧ (Conplicity.pullImage ⟨.error "image absent", .ok ()⟩).pullCalls = 1
    ∧ (Conplicity.pullImage ⟨.error "image absent", .ok ()⟩).err = none :=
  ⟨(pull_image_iff_inspect_fails ⟨.ok (), .ok ()⟩).2.1 () rfl,
   (pull_image_iff_inspect_fails ⟨.error "image absent", .ok ()⟩).1.mpr
     ⟨"image absent", rfl⟩,
   (pull_image_iff_inspect_fails ⟨.error "image absent", .ok ()⟩).2.2
     "image absent" rfl rfl⟩

/-- Claim C6: the liveness probe performed by `NewClient` succeeds exactly
when the exchange reaches the endpoint, the response status is 200 and the
body decodes (as a `map[string]string`) to a mapping whose `type` entry is
`pong`; and on a 200 response that decodes to any other marker value the
error is the wrong-response error whose text carries the rendering of the
decoded body — never a success. -/
theorem ping_succeeds_iff_pong (a p : String) (o : BivacClient.HttpOutcome) :
    ((BivacClient.NewClient a p o).2 = none ↔
      (o.buildErr = none ∧ o.doErr = none ∧ o.readErr = none ∧ o.status = 200 ∧
        ∃ m, o.parsed.bind BivacClient.decodeStringMap = some m ∧
          BivacClient.mapGetD m "type" = "pong"))
    ∧ (∀ m, o.buildErr = none → o.doErr = none → o.readErr = none →
        o.status = 200 → o.parsed.bind BivacClient.decodeStringMap = some m →
        BivacClient.mapGetD m "type" ≠ "pong" →
        (BivacClient.NewClient a p o).2
          = some ("wrong response from the Bivac instance: "
                    ++ BivacClient.formatStringMap m)) := by
  constructor
  · cases hb : o.buildErr with
    | some e =>
        simp [BivacClient.NewClient, BivacClient.newRequest,
              BivacClient.newRequestResult, hb]
    | none =>
        cases hdo : o.doErr with
        | some e =>
            simp [BivacClient.NewClient, BivacClient.newRequest,
                  BivacClient.newRequestResult, hb, hdo]
        | none =>
            cases hre : o.readErr with
            | some e =>
                simp [BivacClient.NewClient, BivacClient.newRequest,
                      BivacClient.newRequestResult, hb, hdo, hre]
            | none =>
                by_cases hst : o.status = 200
                · cases hm : o.parsed.bind BivacClient.decodeStringMap with
                  | none =>
                      simp [BivacClient.NewClient, BivacClient.newRequest,
                            BivacClient.newRequestResult, hb, hdo, hre, hst, hm]
                  | some m =>
                      by_cases hp : BivacClient.mapGetD m "type" = "pong"
                      · simp [BivacClient.NewClient, BivacClient.newRequest,
                              BivacClient.newRequestResult, hb, hdo, hre, hst,
                              hm, hp]
                      · simp [BivacClient.NewClient, BivacClient.newRequest,
                              BivacClient.newRequestResult, hb, hdo, hre, hst,
                              hm, hp]
                · simp [BivacClient.NewClient, BivacClient.newRequest,
                        BivacClient.newRequestResult, hb, hdo, hre, hst]
  · intro m hb hdo hre hst hm hp
    simp [BivacClient.NewClient, BivacClient.newRequest,
          BivacClient.newRequestResult, BivacClient.wrongResponseMsg,
          hb, hdo, hre, hst, hm, hp]

/-- Witness for C6 at the spec's concrete scenario: a 200 response with
body `\x7b"type":"pong"\x7d` succeeds, and a 200 response with body
`\x7b"type":"wrong"\x7d` yields the wrong-response error carrying the
rendered decoded map. -/
theorem ping_succeeds_iff_pong_witness :
    (BivacClient.NewClient "http://remote" "key" pongOutcome).2 = none
    ∧ (BivacClient.NewClient "http://remote" "key" wrongOutcome).2
        = some "wrong response from the Bivac instance: map[type:wrong]" := by
  constructor
  · exact (ping_succeeds_iff_pong "http://remote" "key" pongOutcome).1.mpr
      ⟨rfl, rfl, rfl, rfl, ⟨[("type", "pong")], rfl, rfl⟩⟩
  · exact (ping_succeeds_iff_pong "http://remote" "key" wrongOutcome).2
      [("type", "wrong")] rfl rfl rfl rfl rfl (by decide)

/-- Claim C7: for every invocation of the shared request primitive
`newRequest`, when `http.NewRequest` succeeds the issued request carries
the `Authorization: Bearer <psk>` header; any status other than exactly
200 produces the error carrying the numeric status code and the raw body;
a 200 response whose body fails to decode produces the unmarshal error;
and the unmarshal, wrong-status and transport (send) errors have pairwise
distinct texts for all payloads. -/
theorem newRequest_contract {α : Type} (decode : BivacClient.Json → Option α)
    (c : BivacClient.Client) (method endpoint : String)
    (o : BivacClient.HttpOutcome) :
    (o.buildErr = none →
      (BivacClient.newRequest decode c method endpoint o).1
        = some { method := method, url := c.remoteAddress ++ endpoint,
                 authHeader := "Bearer " ++ c.psk })
    ∧ (o.buildErr = none → o.doErr = none → o.readErr = none →
        o.status ≠ 200 →
        (BivacClient.newRequest decode c method endpoint o).2
          = .error (BivacClient.statusErrMsg o.status o.rawBody))
    ∧ (o.buildErr = none → o.doErr = none → o.readErr = none →
        o.status = 200 → o.parsed.bind decode = none →
        (BivacClient.newRequest decode c method endpoint o).2
          = .error (BivacClient.unmarshalErrMsg o.parseErrMsg))
    ∧ (∀ e s b, BivacClient.unmarshalErrMsg e ≠ BivacClient.statusErrMsg s b)
    ∧ (∀ e e2, BivacClient.unmarshalErrMsg e ≠ BivacClient.sendErrMsg e2)
    ∧ (∀ s b e2, BivacClient.statusErrMsg s b ≠ BivacClient.sendErrMsg e2) := by
  refine ⟨?_, ?_, ?_, ?_, ?_, ?_⟩
  · intro hb
    simp [BivacClient.newRequest, BivacClient.requestOf, hb]
  · intro hb hdo hre hst
    simp [BivacClient.newRequest, BivacClient.newRequestResult,
          hb, hdo, hre, hst]
  · intro hb hdo hre hst hdec
    simp [BivacClient.newRequest, BivacClient.newRequestResult,
          hb, hdo, hre, hst, hdec]
  · intro e s b
    apply string_ne_of_data_take_ne 15
    rw [unmarshal_msg_take, status_msg_take]
    decide
  · intro e e2
    apply string_ne_of_data_take_ne 15
    rw [unmarshal_msg_take, send_msg_take]
    decide
  · intro s b e2
    apply string_ne_of_data_take_ne 15
    rw [status_msg_take, send_msg_take]
    decide

/-- Witness for C7 at a concrete 500 exchange: the issued request carries
the bearer header, and the result is the error carrying the status code
and raw body, distinct from the unmarshal error. -/
theorem newRequest_contract_witness :
    (BivacClient.newRequest BivacClient.decodeStringMap
        { remoteAddress := "http://remote", psk := "secret" } "GET" "/volumes"
        status500Outcome).1
      = some { method := "GET", url := "http://remote/volumes",
               authHeader := "Bearer secret" }
    ∧ (BivacClient.newRequest BivacClient.decodeStringMap
        { remoteAddress := "http://remote", psk := "secret" } "GET" "/volumes"
        status500Outcome).2
      = .error "received wrong status code from the Bivac instance: [500] oops"
    ∧ BivacClient.unmarshalErrMsg "unexpected"
        ≠ BivacClient.statusErrMsg 500 "oops" := by
  have h := newRequest_contract BivacClient.decodeStringMap
    { remoteAddress := "http://remote", psk := "secret" } "GET" "/volumes"
    status500Outcome
  exact ⟨h.1 rfl, h.2.1 rfl rfl rfl (by decide), h.2.2.2.1 "unexpected" 500 "oops"⟩

/-- Claim C10 (implicit): whenever `NewClient` returns a non-nil error
(transport failure, non-200 status, decode failure or wrong liveness
marker), it still returns the client value with the supplied remote
address and preshared key stored. -/
theorem newClient_fields_on_error (a p : String) (o : BivacClient.HttpOutcome)
    (_h : (BivacClient.NewClient a p o).2 ≠ none) :
    (BivacClient.NewClient a p o).1 = { remoteAddress := a, psk := p } := by
  cases hr : (BivacClient.newRequest BivacClient.decodeStringMap
      { remoteAddress := a, psk := p } "GET" "/ping" o).2 with
  | error e => simp [BivacClient.NewClient, hr]
  | ok m =>
      simp only [BivacClient.NewClient, hr]
      split <;> rfl

/-- Witness for C10 at a concrete failing exchange (status 500): the error
is non-nil and the returned client still holds the supplied address and
preshared key. -/
theorem newClient_fields_on_error_witness :
    (BivacClient.NewClient "http://remote" "key" status500Outcome).2 ≠ none
    ∧ (BivacClient.NewClient "http://remote" "key" status500Outcome).1
        = { remoteAddress := "http://remote", psk := "key" } :=
  ⟨by decide,
   newClient_fields_on_error "http://remote" "key" status500Outcome (by decide)⟩
